import Mathlib

/-!
# Verification of the policy-compliance comparison core

A shallow embedding of the comparison pipeline (`src/agents/comparison_agent.py`)
and the orchestration layer (`src/agents/orchestrator_agent.py`) of the
policy-compliance-guardian repository, together with proofs and refutations of
the specified properties.

Text is modelled as `List Char`.  Python `str.lower` is modelled by the
basic-latin lowering `Char.toLower` (the repository's texts are ASCII policy
prose).  Python `str.split()` (split on whitespace runs, dropping empties) is
modelled via `List.splitOnP` on the whitespace class used by CPython for ASCII
text.  Floats `0.85` / `0.90` are modelled as exact rationals.
-/

namespace PolicyGuard

/-- The ASCII whitespace class of Python `str.split()` / `str.strip()`:
space, tab, newline, vertical tab, form feed, carriage return. -/
def isWs (c : Char) : Bool :=
  c = ' ' || c = '\t' || c = '\n' || c = '\x0b' || c = '\x0c' || c = '\r'

/-- Python `text.split()`: split on runs of whitespace, discarding empty parts. -/
def pySplit (l : List Char) : List (List Char) :=
  (l.splitOnP isWs).filter (fun w => !w.isEmpty)

/-- Python `' '.join(ws)`. -/
def joinSp (ws : List (List Char)) : List Char :=
  List.intercalate [' '] ws

/-- Python `text.replace('\r\n', '\n')` (left-to-right, non-overlapping). -/
def replaceCRLF : List Char → List Char
  | [] => []
  | [c] => [c]
  | c1 :: c2 :: rest =>
    if c1 = '\r' ∧ c2 = '\n' then '\n' :: replaceCRLF rest
    else c1 :: replaceCRLF (c2 :: rest)

/-- Python `text.replace('\r', '\n')`. -/
def replaceCR (l : List Char) : List Char :=
  l.map (fun c => if c = '\r' then '\n' else c)

/-- Python `text.strip()`: drop whitespace from both ends. -/
def pyStrip (l : List Char) : List Char :=
  ((l.dropWhile isWs).reverse.dropWhile isWs).reverse

/-- `ComparisonAgent._normalize_text`: lower-case, collapse whitespace runs to
single spaces (`' '.join(text.split())`), replace `\r\n` and `\r` by `\n`,
then strip. -/
def normalize_text (text : List Char) : List Char :=
  pyStrip (replaceCR (replaceCRLF (joinSp (pySplit (text.map Char.toLower)))))

/-- `ChangeType` enum of the comparison agent. -/
inductive ChangeType
  | added
  | removed
  | modified
deriving DecidableEq

/-- `ImpactLevel` enum of the comparison agent. -/
inductive ImpactLevel
  | critical
  | important
  | minor
deriving DecidableEq

/-- `ChangeDetail` dataclass. -/
structure ChangeDetail where
  change_type : ChangeType
  description : List Char
  impact_level : ImpactLevel
  original_text : Option (List Char)
  new_text : Option (List Char)
  confidence : ℚ
deriving DecidableEq

/-- `ComparisonResult` dataclass (timestamps modelled as `Nat`). -/
structure ComparisonResult where
  policy_name : List Char
  has_changes : Bool
  total_changes : Nat
  critical_changes : Nat
  important_changes : Nat
  minor_changes : Nat
  overall_impact : ImpactLevel
  summary : List Char
  changes : List ChangeDetail
  comparison_timestamp : Nat
deriving DecidableEq

/-- Python substring test `needle in hay`. -/
def containsSub (hay needle : List Char) : Bool :=
  decide (needle <:+: hay)

/-- The critical keyword list of `_assess_change_impact`. -/
def critical_keywords : List (List Char) :=
  ["prohibited", "forbidden", "illegal", "violation",
   "must", "required", "mandatory", "shall",
   "deadline", "due date", "effective date"].map String.toList

/-- The important keyword list of `_assess_change_impact`. -/
def important_keywords : List (List Char) :=
  ["should", "recommended", "consider",
   "frequency", "period", "schedule",
   "procedure", "process", "requirement"].map String.toList

/-- `_assess_change_impact`: first critical keyword found in the lowered
`old + " " + new` text wins, then important keywords, else minor. -/
def assess_change_impact (old_text new_text : List Char) : ImpactLevel :=
  let text_combined := (old_text ++ ' ' :: new_text).map Char.toLower
  if critical_keywords.any (fun kw => containsSub text_combined kw) then .critical
  else if important_keywords.any (fun kw => containsSub text_combined kw) then .important
  else .minor

/-- `_assess_addition_impact`. -/
def assess_addition_impact (new_text : List Char) : ImpactLevel :=
  if (["prohibited", "illegal", "deadline"].map String.toList).any
      (fun w => containsSub (new_text.map Char.toLower) w) then .critical
  else .important

/-- `_assess_removal_impact`: removing content is always Important. -/
def assess_removal_impact (_removed_text : List Char) : ImpactLevel :=
  ImpactLevel.important

/-! ## The diff engine: model of `difflib.SequenceMatcher` (no junk heuristic,
which is inactive for sequences of fewer than 200 elements). -/

/-- Tags of `SequenceMatcher.get_opcodes()`. -/
inductive DiffTag
  | equal
  | replace
  | insert
  | delete
deriving DecidableEq

/-- One opcode `(tag, i1, i2, j1, j2)`. -/
structure Opcode where
  tag : DiffTag
  i1 : Nat
  i2 : Nat
  j1 : Nat
  j2 : Nat
deriving DecidableEq

/-- Length of the common run at the heads of two sequences. -/
def commonRun : List (List Char) → List (List Char) → Nat
  | x :: xs, y :: ys => if x = y then commonRun xs ys + 1 else 0
  | _, _ => 0

/-- Size of the matching run of `a`, `b` starting at `(i, j)`, confined to the
windows `[i, ahi)` and `[j, bhi)`. -/
def matchSizeAt (a b : List (List Char)) (ahi bhi i j : Nat) : Nat :=
  commonRun ((a.drop i).take (ahi - i)) ((b.drop j).take (bhi - j))

/-- `SequenceMatcher.find_longest_match` on the window
`a[alo:ahi]`, `b[blo:bhi]`: the longest matching block, ties resolved in
favour of the earliest start in `a`, then the earliest start in `b`; if no
pair matches, `(alo, blo, 0)`. -/
def findLongestMatch (a b : List (List Char)) (alo ahi blo bhi : Nat) :
    Nat × Nat × Nat :=
  (List.range' alo (ahi - alo)).foldl (fun best i =>
    (List.range' blo (bhi - blo)).foldl (fun best j =>
      let k := matchSizeAt a b ahi bhi i j
      if best.2.2 < k then (i, j, k) else best) best) (alo, blo, 0)

/-- The recursive block collection of `SequenceMatcher.get_matching_blocks`
(fuel-indexed; the window sizes shrink at every call, so
`(ahi - alo) + (bhi - blo) + 1` fuel suffices). -/
def matchingBlocksAux (a b : List (List Char)) :
    Nat → Nat → Nat → Nat → Nat → List (Nat × Nat × Nat)
  | 0, _, _, _, _ => []
  | fuel + 1, alo, ahi, blo, bhi =>
    let m := findLongestMatch a b alo ahi blo bhi
    if m.2.2 = 0 then []
    else
      matchingBlocksAux a b fuel alo m.1 blo m.2.1 ++
        m :: matchingBlocksAux a b fuel (m.1 + m.2.2) ahi (m.2.1 + m.2.2) bhi

/-- The second pass of `get_matching_blocks`: coalesce adjacent blocks,
starting from the accumulator `(0, 0, 0)`. -/
def coalesceBlocks : List (Nat × Nat × Nat) → Nat × Nat × Nat → List (Nat × Nat × Nat)
  | [], cur => if cur.2.2 ≠ 0 then [cur] else []
  | blk :: rest, cur =>
    if cur.1 + cur.2.2 = blk.1 ∧ cur.2.1 + cur.2.2 = blk.2.1 then
      coalesceBlocks rest (cur.1, cur.2.1, cur.2.2 + blk.2.2)
    else if cur.2.2 ≠ 0 then cur :: coalesceBlocks rest blk
    else coalesceBlocks rest blk

/-- `SequenceMatcher.get_matching_blocks`, terminator `(la, lb, 0)` included. -/
def getMatchingBlocks (a b : List (List Char)) : List (Nat × Nat × Nat) :=
  coalesceBlocks
    (matchingBlocksAux a b (a.length + b.length + 1) 0 a.length 0 b.length)
    (0, 0, 0) ++ [(a.length, b.length, 0)]

/-- Opcode emission pass of `SequenceMatcher.get_opcodes`. -/
def opcodesAux : Nat → Nat → List (Nat × Nat × Nat) → List Opcode
  | _, _, [] => []
  | i, j, blk :: rest =>
    let pre : List Opcode :=
      if i < blk.1 ∧ j < blk.2.1 then [⟨.replace, i, blk.1, j, blk.2.1⟩]
      else if i < blk.1 then [⟨.delete, i, blk.1, j, blk.2.1⟩]
      else if j < blk.2.1 then [⟨.insert, i, blk.1, j, blk.2.1⟩]
      else []
    let eqs : List Opcode :=
      if blk.2.2 ≠ 0 then
        [⟨.equal, blk.1, blk.1 + blk.2.2, blk.2.1, blk.2.1 + blk.2.2⟩]
      else []
    pre ++ eqs ++ opcodesAux (blk.1 + blk.2.2) (blk.2.1 + blk.2.2) rest

/-- `SequenceMatcher(None, a, b).get_opcodes()`. -/
def getOpcodes (a b : List (List Char)) : List Opcode :=
  opcodesAux 0 0 (getMatchingBlocks a b)

/-! ## Change detection -/

/-- The paragraph lists of `_detect_changes_text_based`:
`[p.strip() for p in text.split('\n') if p.strip()]`. -/
def paragraphsOf (text : List Char) : List (List Char) :=
  ((text.splitOn '\n').map pyStrip).filter (fun p => !p.isEmpty)

/-- Python slice `ps[lo:hi]` joined by `' '.join`. -/
def sliceJoin (ps : List (List Char)) (lo hi : Nat) : List Char :=
  joinSp ((ps.drop lo).take (hi - lo))

/-- Description of a Modified change (the source file's arrow glyph is the
mojibake sequence `â†’`). -/
def modifiedDesc (old_para new_para : List Char) : List Char :=
  "Modified text: \x27".toList ++ old_para.take 50 ++
    "...\x27 â†’ \x27".toList ++ new_para.take 50 ++ "...\x27".toList

/-- Description of an Added change. -/
def addedDesc (new_para : List Char) : List Char :=
  "Added: \x27".toList ++ new_para.take 70 ++ "...\x27".toList

/-- Description of a Removed change. -/
def removedDesc (old_para : List Char) : List Char :=
  "Removed: \x27".toList ++ old_para.take 70 ++ "...\x27".toList

/-- The body of the opcode loop of `_detect_changes_text_based`: an `equal`
opcode contributes nothing, the other tags one `ChangeDetail` each. -/
def processOpcode (oldP newP : List (List Char)) (op : Opcode) : Option ChangeDetail :=
  match op.tag with
  | .replace =>
    let old_para := sliceJoin oldP op.i1 op.i2
    let new_para := sliceJoin newP op.j1 op.j2
    some { change_type := .modified,
           description := modifiedDesc old_para new_para,
           impact_level := assess_change_impact old_para new_para,
           original_text := some old_para,
           new_text := some new_para,
           confidence := 85 / 100 }
  | .insert =>
    let new_para := sliceJoin newP op.j1 op.j2
    some { change_type := .added,
           description := addedDesc new_para,
           impact_level := assess_addition_impact new_para,
           original_text := none,
           new_text := some new_para,
           confidence := 90 / 100 }
  | .delete =>
    let old_para := sliceJoin oldP op.i1 op.i2
    some { change_type := .removed,
           description := removedDesc old_para,
           impact_level := assess_removal_impact old_para,
           original_text := some old_para,
           new_text := none,
           confidence := 90 / 100 }
  | .equal => none

/-- `_detect_changes_text_based` on (already normalized) texts. -/
def detect_changes_text_based (old_text new_text : List Char) : List ChangeDetail :=
  let old_paragraphs := paragraphsOf old_text
  let new_paragraphs := paragraphsOf new_text
  (getOpcodes old_paragraphs new_paragraphs).filterMap
    (processOpcode old_paragraphs new_paragraphs)

/-- Decimal rendering of a count, for summary strings. -/
def natStr (n : Nat) : List Char :=
  (Nat.repr n).toList

/-- `_generate_summary` (the `minor` argument is unused, as in the source). -/
def generate_summary (changes : List ChangeDetail) (critical important _minor : Nat) :
    List Char :=
  let total := changes.length
  let additions := changes.countP (fun c => decide (c.change_type = .added))
  let removals := changes.countP (fun c => decide (c.change_type = .removed))
  let modifications := changes.countP (fun c => decide (c.change_type = .modified))
  let summary :=
    "Detected ".toList ++ natStr total ++ " changes: ".toList ++
      natStr additions ++ " additions, ".toList ++
      natStr removals ++ " removals, ".toList ++
      natStr modifications ++ " modifications".toList
  let summary :=
    if 0 < critical then
      summary ++ ". CRITICAL: ".toList ++ natStr critical ++
        " changes require immediate attention".toList
    else summary
  if 0 < important then
    summary ++ ". IMPORTANT: ".toList ++ natStr important ++
      " changes should be reviewed".toList
  else summary

/-- `ComparisonAgent._compare_policy_texts` (timestamp passed as `now`). -/
def compare_policy_texts (policy_name old_text new_text : List Char) (now : Nat) :
    ComparisonResult :=
  let old_normalized := normalize_text old_text
  let new_normalized := normalize_text new_text
  if old_normalized = new_normalized then
    { policy_name := policy_name,
      has_changes := false,
      total_changes := 0,
      critical_changes := 0,
      important_changes := 0,
      minor_changes := 0,
      overall_impact := .minor,
      summary := "No meaningful changes detected".toList,
      changes := [],
      comparison_timestamp := now }
  else
    let changes := detect_changes_text_based old_normalized new_normalized
    let critical_count := changes.countP (fun c => decide (c.impact_level = .critical))
    let important_count := changes.countP (fun c => decide (c.impact_level = .important))
    let minor_count := changes.countP (fun c => decide (c.impact_level = .minor))
    let overall_impact :=
      if 0 < critical_count then ImpactLevel.critical
      else if 0 < important_count then ImpactLevel.important
      else ImpactLevel.minor
    { policy_name := policy_name,
      has_changes := decide (0 < changes.length),
      total_changes := changes.length,
      critical_changes := critical_count,
      important_changes := important_count,
      minor_changes := minor_count,
      overall_impact := overall_impact,
      summary := generate_summary changes critical_count important_count minor_count,
      changes := changes,
      comparison_timestamp := now }

/-! ## The orchestration layer (`src/agents/orchestrator_agent.py`)

Timestamps are modelled by a monotone `Nat` clock threaded through the state;
Python dicts with known key sets are modelled as structures with `Option`
fields (`none` = key absent), and `dict.get(k, d)` as `Option.getD`.  A step
function (`step_fn` plus its bound agent call) is modelled as
`Nat → StepExec`, mapping the attempt index to either a returned result
dictionary or a raised exception message. -/

/-- `TaskStatus` enum. -/
inductive TaskStatus
  | pending
  | running
  | success
  | failed
  | retrying
deriving DecidableEq

/-- `Task` dataclass (string task ids are modelled by the unique clock value
embedded in them). -/
structure Task where
  task_id : Nat
  task_type : List Char
  policy_name : List Char
  status : TaskStatus
  created_at : Nat
  started_at : Option Nat := none
  completed_at : Option Nat := none
  error_message : Option (List Char) := none
  retry_count : Nat := 0
  max_retries : Nat := 3
deriving DecidableEq

/-- One monitor snapshot dict; only its `content` key is read
(`snapshot.get("content", "")`). -/
structure Snapshot where
  content : List Char
deriving DecidableEq

/-- A step-result dictionary; `none` models an absent key. -/
structure StepResult where
  success : Option Bool := none
  error : Option (List Char) := none
  has_changes : Option Bool := none
  message : Option (List Char) := none
  policy_name : Option (List Char) := none
  total_changes : Option Nat := none
  critical_changes : Option Nat := none
  important_changes : Option Nat := none
  minor_changes : Option Nat := none
  overall_impact : Option ImpactLevel := none
  summary : Option (List Char) := none
  changes : Option (List ChangeDetail) := none
  timestamp : Option Nat := none
  snapshots : List Snapshot := []
  recipients_count : Option Nat := none
  changes_count : Option Nat := none
  mock : Bool := false
deriving DecidableEq

/-- Outcome of one invocation of a step function: a returned dictionary or a
raised exception. -/
inductive StepExec
  | ok (r : StepResult)
  | exn (e : List Char)
deriving DecidableEq

/-- Python truthiness of `d.get(key)` for a boolean-valued key: an absent key
and `False` are both falsy. -/
def truthy (b : Option Bool) : Bool :=
  b.getD false

/-- `list.remove(task)` on the task queue: drop the first entry with the
task's id. -/
def eraseTaskById : List Task → Nat → List Task
  | [], _ => []
  | t :: ts, i => if t.task_id = i then ts else t :: eraseTaskById ts i

/-- Result bundle of `_run_with_retry`: the returned dictionary, the final
task record, the updated queue and history, the backoff sleeps performed and
the number of `step_fn` invocations. -/
structure RetryOut where
  result : StepResult
  task : Task
  queue : List Task
  history : List Task
  sleeps : List Nat
  attempts : Nat
deriving DecidableEq

/-- The `while retry_count <= max_retries` loop of `_run_with_retry`
(fuel-indexed; the fuel bounds the loop iterations, each of which either
returns or increments `retry_count`, so `max_retries + 2` fuel is never
exhausted; the zero-fuel value matches the loop-exit return of the source). -/
def run_with_retry_aux (f : Nat → StepExec) (now : Nat) :
    Nat → Task → List Task → List Task → List Nat → Nat → RetryOut
  | 0, t, queue, history, sleeps, attempts =>
    ⟨{ success := some false, error := some "Max retries exceeded".toList },
     t, queue, history, sleeps, attempts⟩
  | fuel + 1, t, queue, history, sleeps, attempts =>
    if t.retry_count ≤ t.max_retries then
      match f attempts with
      | .ok r =>
        let t2 := { t with status := .success, completed_at := some now }
        ⟨r, t2, eraseTaskById queue t.task_id, history ++ [t2], sleeps, attempts + 1⟩
      | .exn e =>
        let t2 := { t with retry_count := t.retry_count + 1, error_message := some e }
        if t2.retry_count ≤ t2.max_retries then
          run_with_retry_aux f now fuel { t2 with status := .retrying }
            queue history (sleeps ++ [2 ^ t2.retry_count]) (attempts + 1)
        else
          let t3 := { t2 with status := .failed, completed_at := some now }
          ⟨{ success := some false, error := some e }, t3,
           eraseTaskById queue t.task_id, history ++ [t3], sleeps, attempts + 1⟩
    else
      ⟨{ success := some false, error := some "Max retries exceeded".toList },
       t, queue, history, sleeps, attempts⟩

/-- `OrchestratorAgent._run_with_retry`. -/
def run_with_retry (f : Nat → StepExec) (t : Task) (queue history : List Task)
    (now : Nat) : RetryOut :=
  run_with_retry_aux f now (t.max_retries + 2)
    { t with status := .running, started_at := some now } queue history [] 0

/-- Session ids: the policy name together with the creation timestamp that
the source embeds in the id string. -/
abbrev SessionId := List Char × Nat

/-- Metadata dict attached when ending a session. -/
structure SessionMeta where
  changes_detected : Option Nat := none
  notifications_sent : Option Nat := none
  error : Option (List Char) := none
deriving DecidableEq

/-- One session entry (the id is the key of the active map, not a field,
exactly as in the source's dicts). -/
structure Session where
  policy_name : List Char
  created_at : Nat
  status : List Char
  completed_at : Option Nat := none
  metadata : Option SessionMeta := none
deriving DecidableEq

/-- `SessionManager` state: the active map (insertion-ordered association
list) and the completed list. -/
structure SessionManager where
  active_sessions : List (SessionId × Session) := []
  completed_sessions : List Session := []
deriving DecidableEq

/-- Dictionary lookup in the active map. -/
def lookupSession (sm : SessionManager) (sid : SessionId) : Option Session :=
  (sm.active_sessions.find? (fun p => decide (p.1 = sid))).map (fun p => p.2)

/-- `dict.pop(sid)` on the active map. -/
def removeSessionFirst : List (SessionId × Session) → SessionId → List (SessionId × Session)
  | [], _ => []
  | p :: ps, sid => if p.1 = sid then ps else p :: removeSessionFirst ps sid

/-- `SessionManager.create_session`. -/
def create_session (sm : SessionManager) (policy : List Char) (now : Nat) :
    SessionId × SessionManager :=
  let sid : SessionId := (policy, now)
  (sid, { sm with active_sessions := sm.active_sessions ++
      [(sid, { policy_name := policy, created_at := now, status := "running".toList })] })

/-- `SessionManager.end_session`: pop the entry if present, stamp status,
completion time and (if truthy) metadata, and append it to the completed
list; a no-op on an unknown id. -/
def end_session (sm : SessionManager) (sid : SessionId) (status : List Char)
    (metadata : Option SessionMeta) (now : Nat) : SessionManager :=
  match lookupSession sm sid with
  | none => sm
  | some s =>
    let s2 := { s with status := status, completed_at := some now }
    let s3 := match metadata with
      | none => s2
      | some m => { s2 with metadata := some m }
    { active_sessions := removeSessionFirst sm.active_sessions sid,
      completed_sessions := sm.completed_sessions ++ [s3] }

/-- `SessionManager.get_session`. -/
def get_session (sm : SessionManager) (sid : SessionId) : Option Session :=
  lookupSession sm sid

/-- The operations offered by `SessionManager`. -/
inductive SMOp
  | createOp (policy : List Char) (now : Nat)
  | endOp (sid : SessionId) (status : List Char) (metadata : Option SessionMeta) (now : Nat)
  | getOp (sid : SessionId)

/-- State transition of one `SessionManager` operation. -/
def applySMOp (sm : SessionManager) : SMOp → SessionManager
  | .createOp policy now => (create_session sm policy now).2
  | .endOp sid status md now => end_session sm sid status md now
  | .getOp _ => sm

/-- The ids present in the active map. -/
def sessionActiveIds (sm : SessionManager) : List SessionId :=
  sm.active_sessions.map (fun p => p.1)

/-- `ComparisonAgent.analyze_changes`, parametrised by the inner comparison
pipeline (`_compare_policy_texts`), whose possible exceptions are modelled by
`Except`; the `try`/`except` of the source catches them and returns
`{"success": False, "error": e}`.  Returns the result dictionary and the
updated `comparison_history`.  (The dead `previous_snapshot is falsy` branch
of the source is kept: it is unreachable because the snapshot list already
has at least two entries here.) -/
def analyze_changes
    (compareFn : List Char → List Char → List Char → Nat → Except (List Char) ComparisonResult)
    (history : List ComparisonResult) (policy : List Char)
    (monitor_result : StepResult) (now : Nat) : StepResult × List ComparisonResult :=
  let snapshots := monitor_result.snapshots
  if snapshots.length < 2 then
    ({ success := some true, has_changes := some false,
       message := some "Insufficient data for comparison".toList }, history)
  else
    match (if snapshots.length > 1 then snapshots[snapshots.length - 2]? else none) with
    | none =>
      ({ success := some true, has_changes := some false,
         message := some "Baseline stored for future comparison".toList }, history)
    | some previous =>
      let latest := snapshots.getLast?.getD ⟨[]⟩
      match compareFn policy previous.content latest.content now with
      | .ok cr =>
        ({ success := some true, has_changes := some cr.has_changes,
           policy_name := some policy,
           total_changes := some cr.total_changes,
           critical_changes := some cr.critical_changes,
           important_changes := some cr.important_changes,
           minor_changes := some cr.minor_changes,
           overall_impact := some cr.overall_impact,
           summary := some cr.summary,
           changes := some cr.changes,
           timestamp := some cr.comparison_timestamp }, history ++ [cr])
      | .error e => ({ success := some false, error := some e }, history)

/-- Orchestrator state: task queue and history, session manager, the
comparison agent's history, and the clock. -/
structure OrchState where
  task_queue : List Task := []
  task_history : List Task := []
  session_manager : SessionManager := {}
  comparison_history : List ComparisonResult := []
  clock : Nat := 0
deriving DecidableEq

/-- `OrchestratorAgent._create_task`: a fresh pending task appended to the
queue. -/
def create_task (st : OrchState) (task_type policy : List Char) : Task × OrchState :=
  let t : Task := { task_id := st.clock, task_type := task_type, policy_name := policy,
                    status := .pending, created_at := st.clock }
  (t, { st with task_queue := st.task_queue ++ [t], clock := st.clock + 1 })

/-- The result dictionary of `run_compliance_check`. -/
structure CoordOut where
  status : List Char
  session_id : SessionId
  error : Option (List Char) := none
  monitor : Option StepResult := none
  comparison : Option StepResult := none
  update : Option StepResult := none
  notification : Option StepResult := none
  memory : Option StepResult := none
deriving DecidableEq

/-- `OrchestratorAgent.run_compliance_check`, parametrised by the behaviours
of the monitor/update/notification/memory steps (attempt-indexed, to model
repeated invocation under retry) and by the comparison pipeline.  The
comparison step function is `analyze_changes`, which never raises (its own
handler catches everything), so its retry wrapper always succeeds on the
first attempt.  Python's `monitor_result["success"]` and
`update_result["success"]` raise `KeyError` on an absent key, which the outer
handler turns into a failed session. -/
def run_compliance_check
    (monitorF updateF notifyF memoryF : Nat → StepExec)
    (compareFn : List Char → List Char → List Char → Nat → Except (List Char) ComparisonResult)
    (st0 : OrchState) (policy : List Char) : OrchState × CoordOut :=
  let (sid, sm1) := create_session st0.session_manager policy st0.clock
  let st := { st0 with session_manager := sm1, clock := st0.clock + 1 }
  let (t1, st) := create_task st "monitor".toList policy
  let r1 := run_with_retry monitorF t1 st.task_queue st.task_history st.clock
  let st := { st with task_queue := r1.queue, task_history := r1.history,
                      clock := st.clock + 1 }
  let monitor_result := r1.result
  match monitor_result.success with
  | none =>
    let e := "KeyError: success".toList
    let sm2 := end_session st.session_manager sid "failed".toList
      (some { error := some e }) st.clock
    ({ st with session_manager := sm2 },
     { status := "failed".toList, session_id := sid, error := some e })
  | some msucc =>
    if !msucc then
      let e := "Monitor failed: ".toList ++ monitor_result.error.getD "None".toList
      let sm2 := end_session st.session_manager sid "failed".toList
        (some { error := some e }) st.clock
      ({ st with session_manager := sm2 },
       { status := "failed".toList, session_id := sid, error := some e })
    else
      let (t2, st) := create_task st "comparison".toList policy
      let (cres, chist) :=
        analyze_changes compareFn st.comparison_history policy monitor_result st.clock
      let r2 := run_with_retry (fun _ => .ok cres) t2 st.task_queue st.task_history st.clock
      let st := { st with task_queue := r2.queue, task_history := r2.history,
                          comparison_history := chist, clock := st.clock + 1 }
      let comparison_result := r2.result
      if !(truthy comparison_result.has_changes) then
        let sm2 := end_session st.session_manager sid "no_changes".toList none st.clock
        ({ st with session_manager := sm2 },
         { status := "no_changes".toList, session_id := sid })
      else
        let (t3, st) := create_task st "update".toList policy
        let r3 := run_with_retry updateF t3 st.task_queue st.task_history st.clock
        let st := { st with task_queue := r3.queue, task_history := r3.history,
                            clock := st.clock + 1 }
        let update_result := r3.result
        match update_result.success with
        | none =>
          let e := "KeyError: success".toList
          let sm2 := end_session st.session_manager sid "failed".toList
            (some { error := some e }) st.clock
          ({ st with session_manager := sm2 },
           { status := "failed".toList, session_id := sid, error := some e })
        | some _usucc =>
          let (t4, st) := create_task st "notification".toList policy
          let r4 := run_with_retry notifyF t4 st.task_queue st.task_history st.clock
          let st := { st with task_queue := r4.queue, task_history := r4.history,
                              clock := st.clock + 1 }
          let notification_result := r4.result
          let (t5, st) := create_task st "memory".toList policy
          let r5 := run_with_retry memoryF t5 st.task_queue st.task_history st.clock
          let st := { st with task_queue := r5.queue, task_history := r5.history,
                              clock := st.clock + 1 }
          let memory_result := r5.result
          let md : SessionMeta :=
            { changes_detected := some (comparison_result.changes_count.getD 0),
              notifications_sent := some (notification_result.recipients_count.getD 0) }
          let sm2 := end_session st.session_manager sid "success".toList (some md) st.clock
          ({ st with session_manager := sm2 },
           { status := "success".toList, session_id := sid,
             monitor := some monitor_result,
             comparison := some comparison_result,
             update := some update_result,
             notification := some notification_result,
             memory := some memory_result })

/-! ## Helper lemmas -/

/-- The three impact counts of a change list partition its length. -/
theorem countP_impact_partition (l : List ChangeDetail) :
    l.countP (fun c => decide (c.impact_level = .critical)) +
      l.countP (fun c => decide (c.impact_level = .important)) +
      l.countP (fun c => decide (c.impact_level = .minor)) = l.length := by
  induction l with
  | nil => simp
  | cons a t ih =>
    simp only [List.countP_cons, List.length_cons]
    cases h : a.impact_level <;> simp [h] <;> omega

/-- C5: every `ComparisonResult` produced by `_compare_policy_texts` satisfies
the count-consistency invariant `total_changes = critical + important + minor
= len(changes)`, the overall-impact rollup (`Critical` iff `critical > 0`,
else `Important` iff `important > 0`, else `Minor`), and
`has_changes = (len(changes) > 0)`. -/
theorem comparison_result_invariants (policy old_text new_text : List Char) (now : Nat) :
    (compare_policy_texts policy old_text new_text now).total_changes =
        (compare_policy_texts policy old_text new_text now).critical_changes +
        (compare_policy_texts policy old_text new_text now).important_changes +
        (compare_policy_texts policy old_text new_text now).minor_changes ∧
    (compare_policy_texts policy old_text new_text now).total_changes =
        (compare_policy_texts policy old_text new_text now).changes.length ∧
    ((compare_policy_texts policy old_text new_text now).overall_impact = .critical ↔
        0 < (compare_policy_texts policy old_text new_text now).critical_changes) ∧
    ((compare_policy_texts policy old_text new_text now).critical_changes = 0 →
      ((compare_policy_texts policy old_text new_text now).overall_impact = .important ↔
        0 < (compare_policy_texts policy old_text new_text now).important_changes)) ∧
    ((compare_policy_texts policy old_text new_text now).critical_changes = 0 →
      (compare_policy_texts policy old_text new_text now).important_changes = 0 →
      (compare_policy_texts policy old_text new_text now).overall_impact = .minor) ∧
    ((compare_policy_texts policy old_text new_text now).has_changes ↔
        (compare_policy_texts policy old_text new_text now).changes ≠ []) := by
  unfold compare_policy_texts
  dsimp only
  split
  · dsimp only
    exact ⟨rfl, rfl, by decide, by decide, fun _ _ => rfl, by simp⟩
  · dsimp only
    generalize detect_changes_text_based (normalize_text old_text) (normalize_text new_text) = cs
    have hpart := countP_impact_partition cs
    refine ⟨by omega, rfl, ?_, ?_, ?_, by simp [List.length_pos]⟩
    · split_ifs with h1 h2 <;> simp [h1]
    · intro hc
      simp only [hc, Nat.lt_irrefl, if_false]
      split_ifs with h2 <;> simp [h2]
    · intro hc hi
      simp [hc, hi]

/-- C7: every `delete` opcode is classified as a `Removed` change with impact
`Important` (independently of the removed span's keywords), `new_text = None`
and confidence `0.90`. -/
theorem delete_opcode_classification (oldP newP : List (List Char)) (op : Opcode)
    (hop : op.tag = DiffTag.delete) :
    processOpcode oldP newP op =
      some { change_type := .removed,
             description := removedDesc (sliceJoin oldP op.i1 op.i2),
             impact_level := .important,
             original_text := some (sliceJoin oldP op.i1 op.i2),
             new_text := none,
             confidence := 90 / 100 } := by
  unfold processOpcode
  rw [hop]
  rfl

/-- Witness for C7 at a concrete delete opcode. -/
theorem delete_opcode_classification_witness :
    processOpcode ["smoking allowed".toList] [] ⟨.delete, 0, 1, 0, 0⟩ =
      some { change_type := .removed,
             description := removedDesc (sliceJoin ["smoking allowed".toList] 0 1),
             impact_level := .important,
             original_text := some (sliceJoin ["smoking allowed".toList] 0 1),
             new_text := none,
             confidence := 90 / 100 } :=
  delete_opcode_classification ["smoking allowed".toList] [] ⟨.delete, 0, 1, 0, 0⟩ rfl

/-- Characters of `splitOnP` chunks come from the input and fail the predicate. -/
theorem splitOnP_chunk_mem {p : Char → Bool} {l w : List Char} {c : Char}
    (hw : w ∈ l.splitOnP p) (hc : c ∈ w) : c ∈ l ∧ p c = false := by
  induction l generalizing w with
  | nil =>
    simp only [List.splitOnP_nil, List.mem_singleton] at hw
    subst hw; cases hc
  | cons x xs ih =>
    rw [List.splitOnP_cons] at hw
    by_cases hx : p x
    · rw [if_pos hx] at hw
      rcases List.mem_cons.mp hw with h | h
      · subst h; cases hc
      · have := ih h hc
        exact ⟨List.mem_cons_of_mem _ this.1, this.2⟩
    · rw [if_neg hx] at hw
      rcases hhd : xs.splitOnP p with _ | ⟨hd, tl⟩
      · exact absurd hhd (List.splitOnP_ne_nil p xs)
      · rw [hhd] at hw
        simp only [List.modifyHead] at hw
        rcases List.mem_cons.mp hw with h | h
        · subst h
          rcases List.mem_cons.mp hc with h | h
          · exact ⟨h ▸ List.mem_cons_self x xs, by rw [h]; exact Bool.eq_false_iff.mpr hx⟩
          · have := ih (hhd ▸ List.mem_cons_self hd tl) h
            exact ⟨List.mem_cons_of_mem _ this.1, this.2⟩
        · have := ih (hhd ▸ List.mem_cons_of_mem hd h) hc
          exact ⟨List.mem_cons_of_mem _ this.1, this.2⟩

/-- Every word produced by `pySplit` is nonempty, whitespace-free and drawn
from the input. -/
theorem pySplit_words {l w : List Char} (hw : w ∈ pySplit l) :
    w ≠ [] ∧ ∀ c ∈ w, c ∈ l ∧ isWs c = false := by
  unfold pySplit at hw
  have h1 := List.of_mem_filter hw
  have h2 := List.mem_of_mem_filter hw
  refine ⟨by simpa using h1, fun c hc => splitOnP_chunk_mem h2 hc⟩

/-- `joinSp` of the empty list. -/
theorem joinSp_nil : joinSp [] = [] := rfl

/-- `joinSp` of a single word. -/
theorem joinSp_singleton (w : List Char) : joinSp [w] = w := by
  simp [joinSp, List.intercalate]

/-- `joinSp` of two or more words. -/
theorem joinSp_cons_cons (w v : List Char) (rest : List (List Char)) :
    joinSp (w :: v :: rest) = w ++ ' ' :: joinSp (v :: rest) := by
  simp [joinSp, List.intercalate, List.intersperse_cons_cons]

/-- `joinSp (w :: rest)` extends `w`. -/
theorem joinSp_cons_eq_append (w : List Char) (rest : List (List Char)) :
    ∃ t, joinSp (w :: rest) = w ++ t := by
  cases rest with
  | nil => exact ⟨[], by simp [joinSp_singleton]⟩
  | cons v r => exact ⟨' ' :: joinSp (v :: r), joinSp_cons_cons w v r⟩

/-- Every character of `joinSp ws` is a separator space or a word character. -/
theorem joinSp_mem {ws : List (List Char)} {c : Char} (hc : c ∈ joinSp ws) :
    c = ' ' ∨ ∃ w ∈ ws, c ∈ w := by
  induction ws with
  | nil => cases hc
  | cons w rest ih =>
    cases rest with
    | nil =>
      rw [joinSp_singleton] at hc
      exact Or.inr ⟨w, List.mem_singleton_self w, hc⟩
    | cons v r =>
      rw [joinSp_cons_cons] at hc
      rcases List.mem_append.mp hc with h | h
      · exact Or.inr ⟨w, List.mem_cons_self _ _, h⟩
      · rcases List.mem_cons.mp h with h | h
        · exact Or.inl h
        · rcases ih h with h | ⟨u, hu, hcu⟩
          · exact Or.inl h
          · exact Or.inr ⟨u, List.mem_cons_of_mem _ hu, hcu⟩

/-- `text.replace('\r\n', '\n')` is the identity on carriage-return-free text. -/
theorem replaceCRLF_of_no_cr {l : List Char} (h : '\r' ∉ l) : replaceCRLF l = l := by
  induction l with
  | nil => rfl
  | cons c t ih =>
    cases t with
    | nil => rfl
    | cons c2 rest =>
      have hc : c ≠ '\r' := fun hc => h (hc ▸ List.mem_cons_self c _)
      rw [replaceCRLF, if_neg (fun hand => hc hand.1),
        ih (fun hm => h (List.mem_cons_of_mem c hm))]

/-- `text.replace('\r', '\n')` is the identity on carriage-return-free text. -/
theorem replaceCR_of_no_cr {l : List Char} (h : '\r' ∉ l) : replaceCR l = l := by
  unfold replaceCR
  have hid : ∀ c ∈ l, (if c = '\r' then '\n' else c) = c := by
    intro c hc
    rw [if_neg]
    intro he
    exact h (he ▸ hc)
  rw [List.map_congr_left hid]
  simp

/-- `dropWhile` is the identity when the head fails the predicate. -/
theorem dropWhile_eq_self_of_head {p : Char → Bool} {l : List Char}
    (h : ∀ c, l.head? = some c → p c = false) : l.dropWhile p = l := by
  cases l with
  | nil => rfl
  | cons a t => rw [List.dropWhile_cons, if_neg (by simp [h a rfl])]

/-- `pyStrip` is the identity when both ends are not whitespace. -/
theorem pyStrip_eq_self {l : List Char}
    (h1 : ∀ c, l.head? = some c → isWs c = false)
    (h2 : ∀ c, l.getLast? = some c → isWs c = false) : pyStrip l = l := by
  unfold pyStrip
  rw [dropWhile_eq_self_of_head h1,
    dropWhile_eq_self_of_head (fun c hc => h2 c (by rwa [List.head?_reverse] at hc)),
    List.reverse_reverse]

/-- Prepending a predicate-free word to a list extends the first chunk. -/
theorem splitOnP_append_word {p : Char → Bool} (w l : List Char)
    (hw : ∀ c ∈ w, p c = false) :
    (w ++ l).splitOnP p = (l.splitOnP p).modifyHead (w ++ ·) := by
  induction w with
  | nil =>
    rcases hsp : l.splitOnP p with _ | ⟨hd, tl⟩
    · exact absurd hsp (List.splitOnP_ne_nil p l)
    · simp [List.modifyHead, hsp]
  | cons a w' ih =>
    have ha : p a = false := hw a (List.mem_cons_self a w')
    rw [List.cons_append, List.splitOnP_cons, if_neg (by simp [ha]),
      ih (fun c hc => hw c (List.mem_cons_of_mem a hc)), List.modifyHead_modifyHead]
    rfl

/-- `splitOnP` of a single predicate-free word. -/
theorem splitOnP_word {p : Char → Bool} (w : List Char)
    (hw : ∀ c ∈ w, p c = false) : w.splitOnP p = [w] := by
  have h := splitOnP_append_word w [] hw
  simpa using h

/-- `pySplit` is a left inverse of `joinSp` on lists of nonempty
whitespace-free words. -/
theorem pySplit_joinSp {ws : List (List Char)}
    (h : ∀ w ∈ ws, w ≠ [] ∧ ∀ c ∈ w, isWs c = false) :
    pySplit (joinSp ws) = ws := by
  induction ws with
  | nil => rfl
  | cons w rest ih =>
    have hw := h w (List.mem_cons_self _ _)
    cases rest with
    | nil =>
      rw [joinSp_singleton]
      unfold pySplit
      rw [splitOnP_word w hw.2]
      simp [hw.1]
    | cons v r =>
      rw [joinSp_cons_cons]
      unfold pySplit
      rw [splitOnP_append_word w (' ' :: joinSp (v :: r)) hw.2,
        List.splitOnP_cons, if_pos (by decide)]
      simp only [List.modifyHead, List.append_nil, List.filter_cons]
      rw [if_pos (by simpa using hw.1)]
      have ihr := ih (fun u hu => h u (List.mem_cons_of_mem w hu))
      unfold pySplit at ihr
      rw [ihr]

/-- `Char.ofNat` of a valid codepoint round-trips through `toNat`. -/
theorem toNat_ofNat_of_valid (n : Nat) (h : n.isValidChar) :
    (Char.ofNat n).toNat = n := by
  rw [Char.ofNat, dif_pos h]
  rfl

/-- The basic-latin lowering is idempotent. -/
theorem toLower_toLower (c : Char) : c.toLower.toLower = c.toLower := by
  unfold Char.toLower
  by_cases h : c.toNat ≥ 65 ∧ c.toNat ≤ 90
  · rw [if_pos h]
    have hv : (c.toNat + 32).isValidChar := Or.inl (by omega)
    rw [toNat_ofNat_of_valid _ hv, if_neg (by omega)]
  · rw [if_neg h, if_neg h]

/-- The last character of `joinSp` over good words is not whitespace. -/
theorem joinSp_getLast_not_ws {ws : List (List Char)}
    (h : ∀ w ∈ ws, w ≠ [] ∧ ∀ c ∈ w, isWs c = false) :
    ∀ c, (joinSp ws).getLast? = some c → isWs c = false := by
  induction ws with
  | nil => intro c hc; simp [joinSp_nil] at hc
  | cons w rest ih =>
    intro c hc
    cases rest with
    | nil =>
      rw [joinSp_singleton] at hc
      exact ((h w (List.mem_cons_self _ _)).2 c (List.mem_of_getLast?_eq_some hc))
    | cons v r =>
      rw [joinSp_cons_cons] at hc
      have hvr := h v (List.mem_cons_of_mem w (List.mem_cons_self v r))
      obtain ⟨t, ht⟩ := joinSp_cons_eq_append v r
      have hne : joinSp (v :: r) ≠ [] := by
        rw [ht]
        exact fun hnil => hvr.1 (List.append_eq_nil.mp hnil).1
      rcases hm : joinSp (v :: r) with _ | ⟨b, m⟩
      · exact absurd hm hne
      · rw [hm, List.getLast?_append, List.getLast?_cons_cons] at hc
        have hlast : ∃ d, (b :: m).getLast? = some d := by
          cases hbm : (b :: m).getLast? with
          | none => simp [List.getLast?_eq_none_iff] at hbm
          | some d => exact ⟨d, rfl⟩
        obtain ⟨d, hd⟩ := hlast
        rw [hd] at hc
        simp only [Option.or_some, Option.some.injEq] at hc
        subst hc
        exact ih (fun u hu => h u (List.mem_cons_of_mem w hu)) d (hm ▸ hd)

/-- The first character of `joinSp` over good words is not whitespace. -/
theorem joinSp_head_not_ws {ws : List (List Char)}
    (h : ∀ w ∈ ws, w ≠ [] ∧ ∀ c ∈ w, isWs c = false) :
    ∀ c, (joinSp ws).head? = some c → isWs c = false := by
  intro c hc
  cases ws with
  | nil => simp [joinSp_nil] at hc
  | cons w rest =>
    have hw := h w (List.mem_cons_self _ _)
    obtain ⟨t, ht⟩ := joinSp_cons_eq_append w rest
    rw [ht] at hc
    cases w with
    | nil => exact absurd rfl hw.1
    | cons a w' =>
      simp only [List.cons_append, List.head?_cons, Option.some.injEq] at hc
      subst hc
      exact hw.2 _ (List.mem_cons_self _ _)

/-- `pyStrip` is the identity on `joinSp` of good words. -/
theorem pyStrip_joinSp {ws : List (List Char)}
    (h : ∀ w ∈ ws, w ≠ [] ∧ ∀ c ∈ w, isWs c = false) :
    pyStrip (joinSp ws) = joinSp ws :=
  pyStrip_eq_self (joinSp_head_not_ws h) (joinSp_getLast_not_ws h)

/-- No carriage return occurs in `joinSp` of good words. -/
theorem joinSp_no_cr {ws : List (List Char)}
    (h : ∀ w ∈ ws, w ≠ [] ∧ ∀ c ∈ w, isWs c = false) :
    '\r' ∉ joinSp ws := by
  intro hc
  rcases joinSp_mem hc with hsp | ⟨w, hw, hcw⟩
  · exact absurd hsp (by decide)
  · exact absurd ((h w hw).2 _ hcw) (by decide)

/-- The words of `pySplit` are nonempty and whitespace-free. -/
theorem pySplit_good (l : List Char) :
    ∀ w ∈ pySplit l, w ≠ [] ∧ ∀ c ∈ w, isWs c = false :=
  fun _w hw => ⟨(pySplit_words hw).1, fun c hc => ((pySplit_words hw).2 c hc).2⟩

/-- Structure of `_normalize_text`: the replace and strip stages are the
identity, so normalization is exactly lowering, splitting on whitespace and
re-joining with single spaces. -/
theorem normalize_text_eq_joinSp (x : List Char) :
    normalize_text x = joinSp (pySplit (x.map Char.toLower)) := by
  unfold normalize_text
  have hgood := pySplit_good (x.map Char.toLower)
  rw [replaceCRLF_of_no_cr (joinSp_no_cr hgood), replaceCR_of_no_cr (joinSp_no_cr hgood),
    pyStrip_joinSp hgood]

/-- Normalized text is already lower-case. -/
theorem map_toLower_normalize (x : List Char) :
    (normalize_text x).map Char.toLower = normalize_text x := by
  rw [normalize_text_eq_joinSp]
  have hid : ∀ c ∈ joinSp (pySplit (x.map Char.toLower)), Char.toLower c = id c := by
    intro c hc
    rcases joinSp_mem hc with h | ⟨w, hw, hcw⟩
    · rw [h]; decide
    · have hcx := ((pySplit_words hw).2 c hcw).1
      obtain ⟨d, _, hd⟩ := List.mem_map.mp hcx
      rw [← hd, toLower_toLower]
      rfl
  rw [List.map_congr_left hid]
  simp

/-- C10: `_normalize_text` is idempotent. -/
theorem normalize_text_idem (x : List Char) :
    normalize_text (normalize_text x) = normalize_text x := by
  rw [normalize_text_eq_joinSp (normalize_text x), map_toLower_normalize,
    normalize_text_eq_joinSp x, pySplit_joinSp (pySplit_good _)]

/-- Normalized text contains no newline character. -/
theorem normalize_no_newline (x : List Char) : '\n' ∉ normalize_text x := by
  rw [normalize_text_eq_joinSp]
  intro hc
  rcases joinSp_mem hc with h | ⟨w, hw, hcw⟩
  · exact absurd h (by decide)
  · exact absurd ((pySplit_good _ w hw).2 _ hcw) (by decide)

/-- Normalized text is already stripped. -/
theorem pyStrip_normalize (x : List Char) :
    pyStrip (normalize_text x) = normalize_text x := by
  rw [normalize_text_eq_joinSp]
  exact pyStrip_joinSp (pySplit_good _)

/-- The paragraph split of a normalized text yields at most the whole text:
the whitespace collapse has removed every newline. -/
theorem paragraphsOf_normalize (x : List Char) :
    paragraphsOf (normalize_text x) =
      if normalize_text x = [] then [] else [normalize_text x] := by
  unfold paragraphsOf
  have hsp : (normalize_text x).splitOn '\n' = [normalize_text x] := by
    simp only [List.splitOn]
    refine splitOnP_word _ (fun c hc => ?_)
    have := normalize_no_newline x
    simp only [beq_eq_false_iff_ne, ne_eq]
    exact fun he => this (he ▸ hc)
  rw [hsp]
  simp only [List.map_cons, List.map_nil, pyStrip_normalize]
  by_cases hn : normalize_text x = []
  · simp [hn]
  · simp [List.filter, List.isEmpty_eq_false_iff_exists_mem.mpr
      (List.exists_mem_of_ne_nil _ hn), hn]

/-- `getOpcodes` when only the new side has a paragraph. -/
theorem getOpcodes_nil_single (n : List Char) :
    getOpcodes [] [n] = [⟨.insert, 0, 0, 0, 1⟩] := rfl

/-- `getOpcodes` when only the old side has a paragraph. -/
theorem getOpcodes_single_nil (o : List Char) :
    getOpcodes [o] [] = [⟨.delete, 0, 1, 0, 0⟩] := rfl

/-- `getOpcodes` on two distinct single paragraphs: one replace opcode. -/
theorem getOpcodes_single_single {o n : List Char} (h : o ≠ n) :
    getOpcodes [o] [n] = [⟨.replace, 0, 1, 0, 1⟩] := by
  simp [getOpcodes, getMatchingBlocks, matchingBlocksAux, coalesceBlocks, opcodesAux,
    findLongestMatch, matchSizeAt, commonRun, List.range', h]

/-- C2: `_normalize_text` output never contains a newline, hence the paragraph
split of a normalized document has at most one element, and for two texts with
distinct normalizations `_detect_changes_text_based` emits exactly one
`ChangeDetail`. -/
theorem normalize_collapse_single_change (x a b : List Char)
    (h : normalize_text a ≠ normalize_text b) :
    '\n' ∉ normalize_text x ∧
    (paragraphsOf (normalize_text x)).length ≤ 1 ∧
    (detect_changes_text_based (normalize_text a) (normalize_text b)).length = 1 := by
  refine ⟨normalize_no_newline x, ?_, ?_⟩
  · rw [paragraphsOf_normalize]
    split <;> simp
  · simp only [detect_changes_text_based]
    rw [paragraphsOf_normalize a, paragraphsOf_normalize b]
    by_cases ha : normalize_text a = [] <;> by_cases hb : normalize_text b = []
    · exact absurd (ha.trans hb.symm) h
    · simp [ha, hb, getOpcodes_nil_single, processOpcode]
    · simp [ha, hb, getOpcodes_single_nil, processOpcode]
    · simp [ha, hb, getOpcodes_single_single h, processOpcode]

/-- Witness for C2 at concrete inputs. -/
theorem normalize_collapse_single_change_witness :
    normalize_text "Old  rules".toList ≠ normalize_text "New rules\nadded line".toList ∧
    ('\n' ∉ normalize_text "Some\r\nText  here".toList ∧
      (paragraphsOf (normalize_text "Some\r\nText  here".toList)).length ≤ 1 ∧
      (detect_changes_text_based (normalize_text "Old  rules".toList)
        (normalize_text "New rules\nadded line".toList)).length = 1) :=
  ⟨by decide, normalize_collapse_single_change "Some\r\nText  here".toList
    "Old  rules".toList "New rules\nadded line".toList (by decide)⟩

/-- `' '.join` of the singleton slice `ps[0:1]` for a one-element list. -/
theorem sliceJoin_single (o : List Char) : sliceJoin [o] 0 1 = o := by
  simp [sliceJoin, joinSp_singleton]

/-- A modification whose combined lower-cased span contains `"prohibited"` is
assessed Critical. -/
theorem assess_change_impact_critical_of_prohibited (o n : List Char)
    (ho : o.map Char.toLower = o) (hn : n.map Char.toLower = n)
    (hpro : "prohibited".toList <:+: n) :
    assess_change_impact o n = .critical := by
  unfold assess_change_impact
  rw [if_pos]
  refine List.any_eq_true.mpr ⟨"prohibited".toList, by simp [critical_keywords], ?_⟩
  unfold containsSub
  simp only [decide_eq_true_eq]
  have hsp : Char.toLower ' ' = ' ' := by decide
  have hmap : (o ++ ' ' :: n).map Char.toLower = o ++ ' ' :: n := by
    rw [List.map_append, List.map_cons, ho, hn, hsp]
  rw [hmap]
  exact hpro.trans ⟨o ++ [' '], [], by simp⟩

/-- C1 (amended): when the new text adds a `"prohibited"` paragraph that is
absent from the old text (both normalizations nonempty and distinct), the
pipeline produces exactly one change, and — because normalization has already
collapsed all paragraph boundaries — it is a `Modified` change with impact
`Critical`, not an `Added` one. -/
theorem prohibited_addition_yields_modified_critical (old_text new_text : List Char)
    (hno : normalize_text old_text ≠ [])
    (hnn : normalize_text new_text ≠ [])
    (hne : normalize_text old_text ≠ normalize_text new_text)
    (hpro : "prohibited".toList <:+: normalize_text new_text)
    (_hnotold : ¬ "prohibited".toList <:+: normalize_text old_text) :
    detect_changes_text_based (normalize_text old_text) (normalize_text new_text) =
      [{ change_type := .modified,
         description := modifiedDesc (normalize_text old_text) (normalize_text new_text),
         impact_level := .critical,
         original_text := some (normalize_text old_text),
         new_text := some (normalize_text new_text),
         confidence := 85 / 100 }] := by
  have ho := paragraphsOf_normalize old_text
  rw [if_neg hno] at ho
  have hn := paragraphsOf_normalize new_text
  rw [if_neg hnn] at hn
  have hmod : assess_change_impact (normalize_text old_text) (normalize_text new_text) =
      .critical :=
    assess_change_impact_critical_of_prohibited _ _ (map_toLower_normalize old_text)
      (map_toLower_normalize new_text) hpro
  have hproc : processOpcode [normalize_text old_text] [normalize_text new_text]
      ⟨.replace, 0, 1, 0, 1⟩ =
      some { change_type := .modified,
             description := modifiedDesc (sliceJoin [normalize_text old_text] 0 1)
               (sliceJoin [normalize_text new_text] 0 1),
             impact_level := assess_change_impact (sliceJoin [normalize_text old_text] 0 1)
               (sliceJoin [normalize_text new_text] 0 1),
             original_text := some (sliceJoin [normalize_text old_text] 0 1),
             new_text := some (sliceJoin [normalize_text new_text] 0 1),
             confidence := 85 / 100 } := rfl
  simp only [detect_changes_text_based]
  rw [ho, hn, getOpcodes_single_single hne, List.filterMap_cons, hproc]
  simp only [sliceJoin_single, hmod, List.filterMap_nil]

/-- Counterexample for C1 as stated: a concrete pair of texts satisfying the
scenario premise for which the single detected change is `Modified`, not
`Added`. -/
theorem prohibited_addition_not_added_counterexample :
    ("prohibited".toList <:+:
      normalize_text "general rules apply\nsmoking is prohibited".toList) ∧
    (¬ "prohibited".toList <:+: normalize_text "general rules apply".toList) ∧
    normalize_text "general rules apply".toList ≠ [] ∧
    normalize_text "general rules apply\nsmoking is prohibited".toList ≠ [] ∧
    normalize_text "general rules apply".toList ≠
      normalize_text "general rules apply\nsmoking is prohibited".toList ∧
    (∀ c ∈ detect_changes_text_based
        (normalize_text "general rules apply".toList)
        (normalize_text "general rules apply\nsmoking is prohibited".toList),
      c.change_type ≠ ChangeType.added ∧ c.change_type = ChangeType.modified) := by
  decide

/-- Witness for the amended C1 at concrete inputs. -/
theorem prohibited_addition_yields_modified_critical_witness :
    detect_changes_text_based
        (normalize_text "alpha beta".toList)
        (normalize_text "alpha beta\ngamma is prohibited".toList) =
      [{ change_type := .modified,
         description := modifiedDesc (normalize_text "alpha beta".toList)
           (normalize_text "alpha beta\ngamma is prohibited".toList),
         impact_level := .critical,
         original_text := some (normalize_text "alpha beta".toList),
         new_text := some (normalize_text "alpha beta\ngamma is prohibited".toList),
         confidence := 85 / 100 }] :=
  prohibited_addition_yields_modified_critical "alpha beta".toList
    "alpha beta\ngamma is prohibited".toList (by decide) (by decide) (by decide)
    (by decide) (by decide)

/-- A step whose first invocation returns normally makes `_run_with_retry`
succeed immediately: one attempt, no backoff, task marked Success and moved
from the queue to history. -/
theorem run_with_retry_ok_first (f : Nat → StepExec) (r : StepResult) (hf : f 0 = .ok r)
    (t : Task) (q h : List Task) (now : Nat) (hrc : t.retry_count ≤ t.max_retries) :
    run_with_retry f t q h now =
      ⟨r, { t with status := .success, started_at := some now, completed_at := some now },
       eraseTaskById q t.task_id,
       h ++ [{ t with status := .success, started_at := some now, completed_at := some now }],
       [], 1⟩ := by
  unfold run_with_retry
  rw [show t.max_retries + 2 = (t.max_retries + 1) + 1 from rfl]
  rw [run_with_retry_aux]
  simp [hf, hrc]

/-- Full outcome of `_run_with_retry` on an always-raising step with the
default retry bound. -/
theorem run_with_retry_exhaust_eq (f : Nat → StepExec) (msgs : Nat → List Char)
    (hf : ∀ k, f k = .exn (msgs k)) (t : Task) (q h : List Task) (now : Nat)
    (hrc : t.retry_count = 0) (hmax : t.max_retries = 3) :
    run_with_retry f t q h now =
      ⟨{ success := some false, error := some (msgs 3) },
       { t with
           status := .failed,
           started_at := some now,
           completed_at := some now,
           retry_count := 4,
           error_message := some (msgs 3) },
       eraseTaskById q t.task_id,
       h ++ [{ t with
                 status := .failed,
                 started_at := some now,
                 completed_at := some now,
                 retry_count := 4,
                 error_message := some (msgs 3) }],
       [2, 4, 8], 4⟩ := by
  simp [run_with_retry, run_with_retry_aux, hf, hrc, hmax]

/-- C4: with `max_retries = 3` and a step that raises on every invocation,
`_run_with_retry` calls the step exactly 4 times, sleeps 2, 4, 8 units
(cumulative backoff 14) between attempts, leaves the task Failed with
`completed_at` set and moved from the queue to history, and returns a failure
result carrying the last error instead of raising. -/
theorem retry_exhaustion_bound (f : Nat → StepExec) (msgs : Nat → List Char)
    (hf : ∀ k, f k = .exn (msgs k)) (t : Task) (q h : List Task) (now : Nat)
    (hrc : t.retry_count = 0) (hmax : t.max_retries = 3) :
    (run_with_retry f t q h now).attempts = 4 ∧
    (run_with_retry f t q h now).sleeps = [2, 4, 8] ∧
    (run_with_retry f t q h now).sleeps.sum = 14 ∧
    (run_with_retry f t q h now).task.status = .failed ∧
    (run_with_retry f t q h now).task.completed_at = some now ∧
    (run_with_retry f t q h now).task.retry_count = 4 ∧
    (run_with_retry f t q h now).queue = eraseTaskById q t.task_id ∧
    (run_with_retry f t q h now).history = h ++ [(run_with_retry f t q h now).task] ∧
    (run_with_retry f t q h now).result =
      { success := some false, error := some (msgs 3) } := by
  rw [run_with_retry_exhaust_eq f msgs hf t q h now hrc hmax]
  exact ⟨rfl, rfl, rfl, rfl, rfl, rfl, rfl, rfl, rfl⟩

/-- Witness for C4 at a concrete always-raising step. -/
theorem retry_exhaustion_bound_witness :
    (run_with_retry (fun _ => .exn "boom".toList)
        ⟨0, "update".toList, "p".toList, .pending, 0, none, none, none, 0, 3⟩
        [⟨0, "update".toList, "p".toList, .pending, 0, none, none, none, 0, 3⟩] [] 7).attempts
        = 4 ∧
    (run_with_retry (fun _ => .exn "boom".toList)
        ⟨0, "update".toList, "p".toList, .pending, 0, none, none, none, 0, 3⟩
        [⟨0, "update".toList, "p".toList, .pending, 0, none, none, none, 0, 3⟩] [] 7).sleeps
        = [2, 4, 8] ∧
    (run_with_retry (fun _ => .exn "boom".toList)
        ⟨0, "update".toList, "p".toList, .pending, 0, none, none, none, 0, 3⟩
        [⟨0, "update".toList, "p".toList, .pending, 0, none, none, none, 0, 3⟩] [] 7).task.status
        = .failed := by
  have h := retry_exhaustion_bound (fun _ => .exn "boom".toList) (fun _ => "boom".toList)
    (fun _ => rfl)
    ⟨0, "update".toList, "p".toList, .pending, 0, none, none, none, 0, 3⟩
    [⟨0, "update".toList, "p".toList, .pending, 0, none, none, none, 0, 3⟩] [] 7 rfl rfl
  exact ⟨h.1, h.2.1, h.2.2.2.1⟩

/-- Entries surviving `removeSessionFirst` were already present. -/
theorem mem_removeSessionFirst {l : List (SessionId × Session)} {sid : SessionId}
    {p : SessionId × Session} (hp : p ∈ removeSessionFirst l sid) : p ∈ l := by
  induction l with
  | nil => cases hp
  | cons q ps ih =>
    rw [removeSessionFirst] at hp
    split at hp
    · exact List.mem_cons_of_mem _ hp
    · rcases List.mem_cons.mp hp with h | h
      · exact h ▸ List.mem_cons_self _ _
      · exact List.mem_cons_of_mem _ (ih h)

/-- C9: `end_session` on an unknown id is a no-op that does not raise;
on a live id it moves the entry from the active map to the completed list,
stamping the status, end timestamp and optional metadata; and no
`SessionManager` operation ever brings an id that is absent from the active
map back into it (session ids embed a fresh creation timestamp, so a created
id differs from every previously ended one). -/
theorem end_session_contract (sm : SessionManager) (sid : SessionId)
    (status : List Char) (md : Option SessionMeta) (now : Nat) :
    (lookupSession sm sid = none → end_session sm sid status md now = sm) ∧
    (∀ s, lookupSession sm sid = some s →
      end_session sm sid status md now =
        { active_sessions := removeSessionFirst sm.active_sessions sid,
          completed_sessions := sm.completed_sessions ++
            [(match md with
              | none => { s with status := status, completed_at := some now }
              | some m => { s with status := status, completed_at := some now, metadata := some m })] }) ∧
    (∀ op : SMOp, sid ∉ sessionActiveIds sm →
      (∀ p n, op = SMOp.createOp p n → (p, n) ≠ sid) →
      sid ∉ sessionActiveIds (applySMOp sm op)) := by
  refine ⟨fun hn => ?_, fun s hs => ?_, fun op hnot hfresh => ?_⟩
  · unfold end_session
    rw [hn]
  · unfold end_session
    rw [hs]
  · cases op with
    | createOp p n =>
      intro hmem
      simp only [applySMOp, create_session, sessionActiveIds, List.map_append,
        List.map_cons, List.map_nil, List.mem_append, List.mem_cons,
        List.not_mem_nil, or_false] at hmem
      rcases hmem with h | h
      · exact hnot h
      · exact hfresh p n rfl h.symm
    | endOp sid2 st2 md2 n2 =>
      intro hmem
      simp only [applySMOp] at hmem
      unfold end_session at hmem
      rcases hl : lookupSession sm sid2 with _ | s2
      · rw [hl] at hmem
        exact hnot hmem
      · rw [hl] at hmem
        simp only [sessionActiveIds, List.mem_map] at hmem
        obtain ⟨p, hp, hps⟩ := hmem
        exact hnot (List.mem_map.mpr ⟨p, mem_removeSessionFirst hp, hps⟩)
    | getOp s2 =>
      intro hmem
      exact hnot hmem

/-- Witness for C9: ending an unknown session on a concrete manager is a
no-op. -/
theorem end_session_contract_witness :
    lookupSession { active_sessions := [], completed_sessions := [] }
        ("p".toList, 0) = none ∧
    end_session { active_sessions := [], completed_sessions := [] }
        ("p".toList, 0) "failed".toList none 3 =
      { active_sessions := [], completed_sessions := [] } :=
  ⟨rfl, (end_session_contract { active_sessions := [], completed_sessions := [] }
    ("p".toList, 0) "failed".toList none 3).1 rfl⟩

/-- Appending a fresh key to an association list makes it findable. -/
theorem find_keyed_append_fresh (A : List (SessionId × Session)) (sid : SessionId)
    (s : Session) (h : sid ∉ A.map (fun p => p.1)) :
    (A ++ [(sid, s)]).find? (fun p => decide (p.1 = sid)) = some (sid, s) := by
  induction A with
  | nil => simp
  | cons a A ih =>
    have ha : a.1 ≠ sid := by
      intro he
      exact h (List.mem_map.mpr ⟨a, List.mem_cons_self _ _, he⟩)
    rw [List.cons_append, List.find?_cons, decide_eq_false ha]
    exact ih (fun hm => h (List.mem_cons_of_mem _ hm))

/-- C3 (amended): an exception inside the comparison pipeline is caught inside
`analyze_changes`, which returns `{success: false, error}` on the very first
attempt; the retry wrapper therefore never retries and marks the compare Task
Success, the coordinator never inspects that `success` flag — it reads the
absent `has_changes` key as falsy — so the run ends as `{status:
"no_changes"}` with no error surfaced, and the session is ended with status
`"no_changes"`, not `"failed"`. -/
theorem compare_exception_swallowed (monitorF updateF notifyF memoryF : Nat → StepExec)
    (compareFn : List Char → List Char → List Char → Nat → Except (List Char) ComparisonResult)
    (e : List Char) (m : StepResult)
    (hm : monitorF 0 = .ok m) (hms : m.success = some true)
    (hsn : 2 ≤ m.snapshots.length)
    (hcf : ∀ p o n t2, compareFn p o n t2 = .error e)
    (st : OrchState) (policy : List Char)
    (hh : st.task_history = [])
    (hfresh : (policy, st.clock) ∉ sessionActiveIds st.session_manager) :
    (∀ hist tnow, analyze_changes compareFn hist policy m tnow =
        ({ success := some false, error := some e }, hist)) ∧
    (run_compliance_check monitorF updateF notifyF memoryF compareFn st policy).2.status =
      "no_changes".toList ∧
    (run_compliance_check monitorF updateF notifyF memoryF compareFn st policy).2.error =
      none ∧
    (run_compliance_check monitorF updateF notifyF memoryF compareFn st policy).1.comparison_history =
      st.comparison_history ∧
    ((run_compliance_check monitorF updateF notifyF memoryF compareFn st policy).1.task_history.map
        (fun t => (t.task_type, t.status, t.retry_count))) =
      [("monitor".toList, TaskStatus.success, 0), ("comparison".toList, TaskStatus.success, 0)] ∧
    (∃ s, (run_compliance_check monitorF updateF notifyF memoryF compareFn st policy).1.session_manager.completed_sessions =
        st.session_manager.completed_sessions ++ [s] ∧
      s.status = "no_changes".toList ∧ s.policy_name = policy) := by
  have hana : ∀ hist tnow, analyze_changes compareFn hist policy m tnow =
      ({ success := some false, error := some e }, hist) := by
    intro hist tnow
    unfold analyze_changes
    rw [if_neg (show ¬(m.snapshots.length < 2) from by omega)]
    rw [if_pos (show m.snapshots.length > 1 from by omega)]
    rw [List.getElem?_eq_getElem (show m.snapshots.length - 2 < m.snapshots.length from by omega)]
    simp only [hcf]
  refine ⟨hana, ?_⟩
  simp only [run_compliance_check, create_task, create_session]
  rw [run_with_retry_ok_first monitorF m hm _ _ _ _ (by simp)]
  simp only [hms]
  rw [run_with_retry_ok_first _ _ rfl _ _ _ _ (by simp)]
  simp only [hana]
  simp only [truthy, Option.getD_none, Bool.not_false, if_pos]
  unfold end_session lookupSession
  simp only []
  rw [find_keyed_append_fresh _ _ _ hfresh]
  simp [hh]

/-- Counterexample for C3 as stated: at a concrete run whose comparison
pipeline raises, the coordinator reports `no_changes` with no error, the
compare task ends Success (not Failed), and the session ends `"no_changes"`
(not `"failed"`). -/
theorem compare_exception_counterexample :
    (run_compliance_check
        (fun _ => .ok { success := some true, snapshots := [⟨"a".toList⟩, ⟨"b".toList⟩] })
        (fun _ => .ok { success := some true })
        (fun _ => .ok { success := some true })
        (fun _ => .ok { success := some true })
        (fun _ _ _ _ => .error "diff crashed".toList)
        {} "p".toList).2.status = "no_changes".toList ∧
    (run_compliance_check
        (fun _ => .ok { success := some true, snapshots := [⟨"a".toList⟩, ⟨"b".toList⟩] })
        (fun _ => .ok { success := some true })
        (fun _ => .ok { success := some true })
        (fun _ => .ok { success := some true })
        (fun _ _ _ _ => .error "diff crashed".toList)
        {} "p".toList).2.error = none ∧
    ((run_compliance_check
        (fun _ => .ok { success := some true, snapshots := [⟨"a".toList⟩, ⟨"b".toList⟩] })
        (fun _ => .ok { success := some true })
        (fun _ => .ok { success := some true })
        (fun _ => .ok { success := some true })
        (fun _ _ _ _ => .error "diff crashed".toList)
        {} "p".toList).1.task_history.map (fun t => (t.task_type, t.status))) =
      [("monitor".toList, TaskStatus.success), ("comparison".toList, TaskStatus.success)] ∧
    ((run_compliance_check
        (fun _ => .ok { success := some true, snapshots := [⟨"a".toList⟩, ⟨"b".toList⟩] })
        (fun _ => .ok { success := some true })
        (fun _ => .ok { success := some true })
        (fun _ => .ok { success := some true })
        (fun _ _ _ _ => .error "diff crashed".toList)
        {} "p".toList).1.session_manager.completed_sessions.map (fun s => s.status)) =
      ["no_changes".toList] := by
  decide

/-- Witness for the amended C3 at a concrete input. -/
theorem compare_exception_swallowed_witness :
    (run_compliance_check
        (fun _ => .ok { success := some true, snapshots := [⟨"a".toList⟩, ⟨"b".toList⟩] })
        (fun _ => .ok { success := some true })
        (fun _ => .ok { success := some true })
        (fun _ => .ok { success := some true })
        (fun _ _ _ _ => .error "diff crashed".toList)
        {} "q".toList).2.status = "no_changes".toList :=
  (compare_exception_swallowed
    (fun _ => .ok { success := some true, snapshots := [⟨"a".toList⟩, ⟨"b".toList⟩] })
    (fun _ => .ok { success := some true })
    (fun _ => .ok { success := some true })
    (fun _ => .ok { success := some true })
    (fun _ _ _ _ => .error "diff crashed".toList)
    "diff crashed".toList
    { success := some true, snapshots := [⟨"a".toList⟩, ⟨"b".toList⟩] }
    rfl rfl (by decide) (fun _ _ _ _ => rfl) {} "q".toList rfl (by decide)).2.1

/-- C6 (amended): with fewer than two snapshots the comparison step
short-circuits successfully with `has_changes = false` and the message
`"Insufficient data for comparison"` (the `"Baseline stored for future
comparison"` branch of the source is dead code), no `ComparisonResult` is
produced (the comparison history is untouched and the run is independent of
the comparison pipeline), and the session ends `"no_changes"`. -/
theorem insufficient_snapshots_short_circuit (monitorF updateF notifyF memoryF : Nat → StepExec)
    (compareFn compareFn2 : List Char → List Char → List Char → Nat → Except (List Char) ComparisonResult)
    (m : StepResult)
    (hm : monitorF 0 = .ok m) (hms : m.success = some true)
    (hsn : m.snapshots.length < 2)
    (st : OrchState) (policy : List Char)
    (hh : st.task_history = [])
    (hfresh : (policy, st.clock) ∉ sessionActiveIds st.session_manager) :
    (∀ cf hist tnow, analyze_changes cf hist policy m tnow =
        ({ success := some true, has_changes := some false,
           message := some "Insufficient data for comparison".toList }, hist)) ∧
    (run_compliance_check monitorF updateF notifyF memoryF compareFn st policy).2.status =
      "no_changes".toList ∧
    (run_compliance_check monitorF updateF notifyF memoryF compareFn st policy).1.comparison_history =
      st.comparison_history ∧
    run_compliance_check monitorF updateF notifyF memoryF compareFn st policy =
      run_compliance_check monitorF updateF notifyF memoryF compareFn2 st policy ∧
    (∃ s, (run_compliance_check monitorF updateF notifyF memoryF compareFn st policy).1.session_manager.completed_sessions =
        st.session_manager.completed_sessions ++ [s] ∧
      s.status = "no_changes".toList ∧ s.policy_name = policy) := by
  have hana : ∀ (cf : List Char → List Char → List Char → Nat →
        Except (List Char) ComparisonResult) hist tnow,
      analyze_changes cf hist policy m tnow =
        ({ success := some true, has_changes := some false,
           message := some "Insufficient data for comparison".toList }, hist) := by
    intro cf hist tnow
    unfold analyze_changes
    rw [if_pos hsn]
  refine ⟨hana, ?_⟩
  simp only [run_compliance_check, create_task, create_session]
  rw [run_with_retry_ok_first monitorF m hm _ _ _ _ (by simp)]
  simp only [hms]
  simp only [hana]
  rw [run_with_retry_ok_first _ _ rfl _ _ _ _ (by simp)]
  simp only [truthy, Option.getD_some, Bool.not_false, if_pos]
  unfold end_session lookupSession
  simp only []
  rw [find_keyed_append_fresh _ _ _ hfresh]
  simp [hh]

/-- Counterexample for C6 as stated: with one snapshot the short-circuit
message is `"Insufficient data for comparison"`, not the claimed baseline
message. -/
theorem insufficient_snapshots_message_counterexample :
    (analyze_changes (fun _ _ _ _ => .error []) [] "p".toList
        { success := some true, snapshots := [⟨"a".toList⟩] } 0).1.message =
      some "Insufficient data for comparison".toList ∧
    (analyze_changes (fun _ _ _ _ => .error []) [] "p".toList
        { success := some true, snapshots := [⟨"a".toList⟩] } 0).1.message ≠
      some "Baseline stored for future comparison".toList := by
  decide

/-- Witness for the amended C6 at a concrete input. -/
theorem insufficient_snapshots_short_circuit_witness :
    (run_compliance_check
        (fun _ => .ok { success := some true, snapshots := [⟨"a".toList⟩] })
        (fun _ => .ok { success := some true })
        (fun _ => .ok { success := some true })
        (fun _ => .ok { success := some true })
        (fun _ _ _ _ => .error "unused".toList)
        {} "q".toList).2.status = "no_changes".toList :=
  (insufficient_snapshots_short_circuit
    (fun _ => .ok { success := some true, snapshots := [⟨"a".toList⟩] })
    (fun _ => .ok { success := some true })
    (fun _ => .ok { success := some true })
    (fun _ => .ok { success := some true })
    (fun _ _ _ _ => .error "unused".toList)
    (fun _ _ _ _ => .error "other".toList)
    { success := some true, snapshots := [⟨"a".toList⟩] }
    rfl rfl (by decide) {} "q".toList rfl (by decide)).2.1

/-- C8 (amended): a downstream sink that raises is retried to the full bound,
ends Failed and its `{success: false, error}` result is recorded non-fatally
in the final report; but a sink that merely returns `{success: false}` is NOT
retried — its result is passed through after a single attempt with the task
marked Success.  In both cases sibling sinks still run, the comparison
result's `overall_impact` is unchanged, and the run and session end
`"success"`. -/
theorem downstream_failure_soft_fail (monitorF updateF notifyF memoryF : Nat → StepExec)
    (compareFn : List Char → List Char → List Char → Nat → Except (List Char) ComparisonResult)
    (m u w : StepResult) (cr : ComparisonResult) (nmsgs : Nat → List Char)
    (hm : monitorF 0 = .ok m) (hms : m.success = some true)
    (hsn : 2 ≤ m.snapshots.length)
    (hcf : ∀ p o n t2, compareFn p o n t2 = .ok cr)
    (hcr : cr.has_changes = true)
    (hu : updateF 0 = .ok u) (hus : u.success = some false)
    (hn : ∀ k, notifyF k = .exn (nmsgs k))
    (hw : memoryF 0 = .ok w)
    (st : OrchState) (policy : List Char)
    (hh : st.task_history = [])
    (hfresh : (policy, st.clock) ∉ sessionActiveIds st.session_manager) :
    (run_compliance_check monitorF updateF notifyF memoryF compareFn st policy).2.status =
      "success".toList ∧
    (run_compliance_check monitorF updateF notifyF memoryF compareFn st policy).2.update =
      some u ∧
    (run_compliance_check monitorF updateF notifyF memoryF compareFn st policy).2.notification =
      some { success := some false, error := some (nmsgs 3) } ∧
    (run_compliance_check monitorF updateF notifyF memoryF compareFn st policy).2.memory =
      some w ∧
    (∃ rc, (run_compliance_check monitorF updateF notifyF memoryF compareFn st policy).2.comparison =
        some rc ∧ rc.overall_impact = some cr.overall_impact ∧ rc.success = some true) ∧
    ((run_compliance_check monitorF updateF notifyF memoryF compareFn st policy).1.task_history.map
        (fun t => (t.task_type, t.status, t.retry_count))) =
      [("monitor".toList, TaskStatus.success, 0), ("comparison".toList, TaskStatus.success, 0),
       ("update".toList, TaskStatus.success, 0), ("notification".toList, TaskStatus.failed, 4),
       ("memory".toList, TaskStatus.success, 0)] ∧
    (∃ s, (run_compliance_check monitorF updateF notifyF memoryF compareFn st policy).1.session_manager.completed_sessions =
        st.session_manager.completed_sessions ++ [s] ∧
      s.status = "success".toList ∧ s.policy_name = policy) := by
  have hana : ∀ hist tnow, analyze_changes compareFn hist policy m tnow =
      ({ success := some true, has_changes := some cr.has_changes,
         policy_name := some policy,
         total_changes := some cr.total_changes,
         critical_changes := some cr.critical_changes,
         important_changes := some cr.important_changes,
         minor_changes := some cr.minor_changes,
         overall_impact := some cr.overall_impact,
         summary := some cr.summary,
         changes := some cr.changes,
         timestamp := some cr.comparison_timestamp }, hist ++ [cr]) := by
    intro hist tnow
    unfold analyze_changes
    rw [if_neg (show ¬(m.snapshots.length < 2) from by omega)]
    rw [if_pos (show m.snapshots.length > 1 from by omega)]
    rw [List.getElem?_eq_getElem (show m.snapshots.length - 2 < m.snapshots.length from by omega)]
    simp only [hcf]
  simp only [run_compliance_check, create_task, create_session]
  rw [run_with_retry_ok_first monitorF m hm _ _ _ _ (by simp)]
  simp only [hms]
  rw [run_with_retry_ok_first _ _ rfl _ _ _ _ (by simp)]
  simp only [hana]
  simp only [truthy, hcr, Option.getD_some, Bool.not_true, if_neg]
  rw [run_with_retry_ok_first updateF u hu _ _ _ _ (by simp)]
  simp only [hus]
  rw [run_with_retry_exhaust_eq notifyF nmsgs hn _ _ _ _ (by simp) (by simp)]
  rw [run_with_retry_ok_first memoryF w hw _ _ _ _ (by simp)]
  unfold end_session lookupSession
  simp only []
  rw [find_keyed_append_fresh _ _ _ hfresh]
  simp [hh]

/-- Counterexample for C8 as stated: at a concrete run whose update sink
returns `{success: false}` without raising, the update task ends Success with
`retry_count = 0` — it is not retried at all, contradicting the claimed retry
bound for result-level sink failures. -/
theorem downstream_no_retry_counterexample :
    ((run_compliance_check
        (fun _ => .ok { success := some true, snapshots := [⟨"alpha".toList⟩, ⟨"beta gamma".toList⟩] })
        (fun _ => .ok { success := some false, error := some "update failed".toList })
        (fun _ => .ok { success := some true, recipients_count := some 2 })
        (fun _ => .ok { success := some true })
        (fun p o n t2 => .ok (compare_policy_texts p o n t2))
        {} "p".toList).1.task_history.map
          (fun t => (t.task_type, t.status, t.retry_count))) =
      [("monitor".toList, TaskStatus.success, 0), ("comparison".toList, TaskStatus.success, 0),
       ("update".toList, TaskStatus.success, 0), ("notification".toList, TaskStatus.success, 0),
       ("memory".toList, TaskStatus.success, 0)] ∧
    (run_compliance_check
        (fun _ => .ok { success := some true, snapshots := [⟨"alpha".toList⟩, ⟨"beta gamma".toList⟩] })
        (fun _ => .ok { success := some false, error := some "update failed".toList })
        (fun _ => .ok { success := some true, recipients_count := some 2 })
        (fun _ => .ok { success := some true })
        (fun p o n t2 => .ok (compare_policy_texts p o n t2))
        {} "p".toList).2.update =
      some { success := some false, error := some "update failed".toList } ∧
    (run_compliance_check
        (fun _ => .ok { success := some true, snapshots := [⟨"alpha".toList⟩, ⟨"beta gamma".toList⟩] })
        (fun _ => .ok { success := some false, error := some "update failed".toList })
        (fun _ => .ok { success := some true, recipients_count := some 2 })
        (fun _ => .ok { success := some true })
        (fun p o n t2 => .ok (compare_policy_texts p o n t2))
        {} "p".toList).2.status = "success".toList := by
  decide

/-- Witness for the amended C8 at a concrete input. -/
theorem downstream_failure_soft_fail_witness :
    (run_compliance_check
        (fun _ => .ok { success := some true, snapshots := [⟨"a".toList⟩, ⟨"b".toList⟩] })
        (fun _ => .ok { success := some false })
        (fun _ => .exn "net down".toList)
        (fun _ => .ok { success := some true })
        (fun _ _ _ _ => .ok (compare_policy_texts "p".toList "a".toList "b".toList 0))
        {} "q".toList).2.status = "success".toList :=
  (downstream_failure_soft_fail
    (fun _ => .ok { success := some true, snapshots := [⟨"a".toList⟩, ⟨"b".toList⟩] })
    (fun _ => .ok { success := some false })
    (fun _ => .exn "net down".toList)
    (fun _ => .ok { success := some true })
    (fun _ _ _ _ => .ok (compare_policy_texts "p".toList "a".toList "b".toList 0))
    { success := some true, snapshots := [⟨"a".toList⟩, ⟨"b".toList⟩] }
    { success := some false } { success := some true }
    (compare_policy_texts "p".toList "a".toList "b".toList 0)
    (fun _ => "net down".toList)
    rfl rfl (by decide) (fun _ _ _ _ => rfl) (by decide) rfl rfl
    (fun _ => rfl) rfl {} "q".toList rfl (by decide)).1

end PolicyGuard
